import Mathlib

/-!
# Verification of the lefra double-entry ledger core

Shallow embedding of the TypeScript sources:
* `src/ledger/accounts/LedgerAccountRef.ts` — account-name validation;
* `src/ledger/storage/typeorm/TypeormLedgerStorage.ts` — the TypeORM-backed
  storage (`EntityAccountRef` is defined at the bottom of the same file);
* `src/tests/helpers/PgQueryRunner.ts` — the test query-runner used to check
  the `release()` contract.

The database is modelled as an explicit record of tables; every storage
operation threads the database state and returns `Except LedgerErr` results,
mirroring the promise-rejection error channel of the source.  Transaction
start/commit/rollback calls are recorded in an explicit operation log so the
transaction-participation protocol can be stated.
-/

namespace Lefra

/-- The error classes of the source (`LedgerError`, `LedgerNotFoundError`,
`LedgerAccountError`), each carrying its message. -/
inductive LedgerErr where
  | ledgerError (msg : String)
  | ledgerNotFound (msg : String)
  | ledgerAccountError (msg : String)
deriving DecidableEq, Repr

deriving instance DecidableEq for Except

/-! ## Account-name validation (`LedgerAccountRef.ts`) -/

/-- Character class `[\p{L}\d]` of `VALID_NAME_REGEX`: a letter or a digit.  (JS `\p{L}` covers
all Unicode letters; the names in the claims are ASCII, and `Char.isAlpha`
models the ASCII letters.) -/
def isLetterOrDigit (c : Char) : Bool :=
  c.isAlpha || c.isDigit

/-- Character class `\w` of `VALID_NAME_REGEX`: `[A-Za-z0-9_]`.  Note that `\w` does NOT
include the hyphen `'-'`. -/
def isWordChar (c : Char) : Bool :=
  c.isAlpha || c.isDigit || c = '_'

/-- The regex `VALID_NAME_REGEX = /^[\p{L}\d]\w*[\p{L}\d]$/u`
(`src/ledger/accounts/LedgerAccountRef.ts:7`): a letter/digit, then word
characters, then a letter/digit — so at least two characters. -/
def matchesValidNameRegex (s : String) : Bool :=
  match s.toList with
  | [] => false
  | [_] => false
  | c :: c₂ :: rest =>
      isLetterOrDigit c
        && ((c₂ :: rest).dropLast.all isWordChar)
        && isLetterOrDigit ((c₂ :: rest).getLast (by simp))

/-- Embedding of `LedgerAccountRef.validateName` (`LedgerAccountRef.ts:25-35`). -/
def validateName (name : String) : Except LedgerErr Unit :=
  if name = "" then
    .error (.ledgerAccountError "Account name cannot be empty")
  else if !matchesValidNameRegex name then
    .error (.ledgerAccountError
      ("Account name is invalid. Use letters, digits, or underscores, and start/end with a letter or digit. Name: " ++ name))
  else
    .ok ()

/-- The rule the spec states for names: non-empty, made of letters, digits,
underscores, or hyphens, starting and ending with a letter or digit.  Written
from the spec's words, to be compared with `validateName`. -/
def specValidName (s : String) : Bool :=
  match s.toList with
  | [] => false
  | c :: rest =>
      isLetterOrDigit c
        && rest.dropLast.all (fun x => isWordChar x || x = '-')
        && isLetterOrDigit (rest.getLastD c)

/-- Modelled from the spec: `SystemAccountRef` (its class file is not under
`src/`): `accountSlug == name`; the constructor validates the name with the
shared `validateName`. -/
structure SystemAccountRefV where
  ledgerSlug : String
  accountSlug : String
deriving DecidableEq, Repr

/-- Modelled from the spec: the `SystemAccountRef` constructor (its class file
is not under `src/`): validate the name, then set `accountSlug := name`. -/
def mkSystemAccountRef (ledgerSlug name : String) :
    Except LedgerErr SystemAccountRefV := do
  validateName name
  .ok { ledgerSlug, accountSlug := name }

/-! ## `EntityAccountRef` (bottom of `TypeormLedgerStorage.ts`) -/

/-- A JavaScript number as far as `normalizeExternalId` observes it: only
finiteness matters; finite values are modelled as integers (with their decimal
`String(...)` rendering). -/
inductive JsNum where
  | finite (v : Int)
  | nan
  | posInf
  | negInf
deriving DecidableEq, Repr

/-- The type `EntityExternalId = number | string` (`@/types.js`). -/
inductive EntityExternalId where
  | num (v : JsNum)
  | str (s : String)
deriving DecidableEq, Repr

/-- The whitespace class of the JS regex `\s` (also the set
`String.prototype.trim()` strips): tab, LF, VT, FF, CR, space, NBSP, the
line/paragraph separators, the BOM, and every Unicode `Space_Separator`
character (U+1680, U+2000..U+200A, U+202F, U+205F, U+3000). -/
def isJsWhitespace (c : Char) : Bool :=
  c = ' ' || c = '\t' || c = '\n' || c = '\r'
    || c.val = 11 || c.val = 12 || c.val = 160
    || c.val = 0x1680
    || (0x2000 ≤ c.val && c.val ≤ 0x200A)
    || c.val = 0x2028 || c.val = 0x2029
    || c.val = 0x202F || c.val = 0x205F || c.val = 0x3000
    || c.val = 0xFEFF

/-- The check `!externalId.trim()`: the string is empty or all whitespace. -/
def isBlankString (s : String) : Bool :=
  s.toList.all isJsWhitespace

/-- The test `/[:\s]/u.test(externalId)`: the string contains a colon or whitespace. -/
def containsColonOrWhitespace (s : String) : Bool :=
  s.toList.any (fun c => c = ':' || isJsWhitespace c)

/-- Message `EXTERNAL_ID_ERROR_MESSAGE` (`TypeormLedgerStorage.ts:835-836`). -/
def externalIdErrorMessage : String :=
  "External id must be a finite number or non-empty string without spaces or \":\""

/-- Embedding of `EntityAccountRef.normalizeExternalId` (`TypeormLedgerStorage.ts:867-891`).
The `typeof externalId !== 'string'` branch cannot fire: the inductive
`EntityExternalId` is exactly `number | string`. -/
def normalizeExternalId : EntityExternalId → Except LedgerErr EntityExternalId
  | .num (.finite v) => .ok (.num (.finite v))
  | .num _ => .error (.ledgerAccountError externalIdErrorMessage)
  | .str s =>
      if isBlankString s then
        .error (.ledgerAccountError externalIdErrorMessage)
      else if containsColonOrWhitespace s then
        .error (.ledgerAccountError externalIdErrorMessage)
      else
        .ok (.str s)

/-- Rendering `String(externalId)` / `externalId.toString()`. -/
def externalIdToString : EntityExternalId → String
  | .num (.finite v) => toString v
  | .num .nan => "NaN"
  | .num .posInf => "Infinity"
  | .num .negInf => "-Infinity"
  | .str s => s

structure EntityAccountRefV where
  ledgerSlug : String
  name : String
  externalId : EntityExternalId
  accountSlug : String
deriving DecidableEq, Repr

/-- The `EntityAccountRef` constructor (`TypeormLedgerStorage.ts:852-865`):
validate the name, normalize the external id, and compose
`accountSlug = name + ":" + String(normalizedExternalId)`. -/
def mkEntityAccountRef (ledgerSlug name : String) (externalId : EntityExternalId) :
    Except LedgerErr EntityAccountRefV := do
  validateName name
  let normalizedExternalId ← normalizeExternalId externalId
  .ok { ledgerSlug, name, externalId := normalizedExternalId,
        accountSlug := name ++ ":" ++ externalIdToString normalizedExternalId }

/-- The spec's rule for external ids, written from the spec's words: a finite
number, or a string that is non-empty after trimming and contains neither
whitespace nor a colon. -/
def specValidExternalId : EntityExternalId → Bool
  | .num (.finite _) => true
  | .num _ => false
  | .str s => !isBlankString s && !containsColonOrWhitespace s

/-! ## The database model

The storage issues SQL against one connection; we model the tables it touches
as explicit lists of rows.  The stored function `ledger_account_id(...)`
(system-account lookup / entity-account lookup-or-provision) is an external
collaborator of the core, modelled as finite result maps carried in the
database state. -/

/-- The union `'DEBIT' | 'CREDIT'`. -/
inductive NormalBalance where
  | debit
  | credit
deriving DecidableEq, Repr

/-- A row of `ledger`. -/
structure LedgerRow where
  id : Nat
  slug : String
  name : String
  description : String
  ledgerCurrencyId : Nat
deriving DecidableEq, Repr

/-- A row of `ledger_account_type` (`description` is a nullable column). -/
structure AccountTypeRow where
  id : Nat
  slug : String
  name : String
  description : Option String
  normalBalance : NormalBalance
  isEntityLedgerAccount : Bool
  parentLedgerAccountTypeId : Option Nat
deriving DecidableEq, Repr

/-- A row of `ledger_transaction`. Timestamps are modelled as `Nat`. -/
structure TransactionRow where
  id : Nat
  ledgerId : Nat
  postedAt : Nat
  description : Option String
deriving DecidableEq, Repr

/-- A row of `ledger_transaction_entry`.  `amount` holds the full-precision
string the storage writes (`entry.amount.toFullPrecision()`). -/
structure EntryRow where
  ledgerTransactionId : Nat
  ledgerAccountId : Nat
  action : NormalBalance
  amount : String
deriving DecidableEq, Repr

/-- One INSERT issued by the storage, in issue order. -/
inductive WriteOp where
  | txRow (id ledgerId postedAt : Nat) (description : Option String)
  | entryRow (ledgerTransactionId ledgerAccountId : Nat)
      (action : NormalBalance) (amount : String)
  | accountTypeRow (id : Nat)
deriving DecidableEq, Repr

/-- The visible database state.  `systemResolve` and `entityResolve` model the
results of the stored function `ledger_account_id` (two- and three-argument
forms); an absent key models a `NULL` result.  `writeLog` records every INSERT
in the order it was issued. -/
structure DB where
  ledgers : List LedgerRow
  accountTypes : List AccountTypeRow
  transactions : List TransactionRow
  entries : List EntryRow
  systemResolve : List ((Nat × String) × Nat)
  entityResolve : List ((Nat × String × String) × Nat)
  nextId : Nat
  writeLog : List WriteOp
deriving DecidableEq, Repr

/-- Embedding of `maybeOne` (`TypeormLedgerStorage.ts:805-819`) applied to the rows a query
returned: none for zero rows, the row for one, an error for more. -/
def maybeOne {α : Type} (rows : List α) : Except LedgerErr (Option α) :=
  match rows with
  | [] => .ok none
  | [r] => .ok (some r)
  | _ => .error (.ledgerError "Expected at most one row")

/-- Embedding of `getLedgerIdBySlug` (`TypeormLedgerStorage.ts:306-334`): select the ledger
row by slug, `LedgerNotFoundError` when absent. -/
def getLedgerIdBySlug (db : DB) (slug : String) : Except LedgerErr LedgerRow := do
  let row ← maybeOne (db.ledgers.filter (fun l => l.slug = slug))
  match row with
  | none => .error (.ledgerNotFound ("Ledger " ++ slug ++ " is not found"))
  | some r => .ok r

/-! ## Account types -/

/-- The input shape `InputLedgerAccountType`. -/
structure InputLedgerAccountType where
  slug : String
  name : String
  description : String
  normalBalance : NormalBalance
  isEntityLedgerAccount : Bool
  parentLedgerAccountTypeId : Option Nat
deriving DecidableEq, Repr

/-- The projection `PersistedLedgerAccountType`. -/
structure PersistedLedgerAccountType where
  id : Nat
  slug : String
  name : String
  description : String
  normalBalance : NormalBalance
  isEntityLedgerAccount : Bool
  parentLedgerAccountTypeId : Option Nat
deriving DecidableEq, Repr

/-- Embedding of `mapLedgerAccountType` (`TypeormLedgerStorage.ts:684-715`):
`description ?? ''`, other fields copied. -/
def mapLedgerAccountType (row : AccountTypeRow) : PersistedLedgerAccountType :=
  { id := row.id, slug := row.slug, name := row.name,
    description := row.description.getD "",
    normalBalance := row.normalBalance,
    isEntityLedgerAccount := row.isEntityLedgerAccount,
    parentLedgerAccountTypeId := row.parentLedgerAccountTypeId }

/-- Embedding of `findAccountTypeBySlug` (`TypeormLedgerStorage.ts:204-228`). -/
def findAccountTypeBySlug (db : DB) (slug : String) :
    Except LedgerErr (Option PersistedLedgerAccountType) := do
  let row ← maybeOne (db.accountTypes.filter (fun t => t.slug = slug))
  match row with
  | none => .ok none
  | some r => .ok (some (mapLedgerAccountType r))

/-- Embedding of `getSavedAccountTypeById` (`TypeormLedgerStorage.ts:642-664`): select by
id; when no row comes back it THROWS `Account type ID: <id> not found`; when a
row comes back it returns the mapped object — it never returns null. -/
def getSavedAccountTypeById (db : DB) (id : Nat) :
    Except LedgerErr PersistedLedgerAccountType := do
  let row ← maybeOne (db.accountTypes.filter (fun t => t.id = id))
  match row with
  | none => .error (.ledgerError ("Account type ID: " ++ toString id ++ " not found"))
  | some r => .ok (mapLedgerAccountType r)

/-- JS truthiness of the value `getSavedAccountTypeById` returned: that value
is always an object, and an object is never null/undefined, so
`!parentAccount` is constantly false. -/
def isNullish (_ : PersistedLedgerAccountType) : Bool := false

/-- JS truthiness of `parentLedgerAccountTypeId` in
`if (parentLedgerAccountTypeId)`: `null` and `0` are falsy. -/
def truthyId : Option Nat → Bool
  | none => false
  | some n => n ≠ 0

/-- The parent-validation block of `insertAccountType`
(`TypeormLedgerStorage.ts:459-472`). -/
def checkParentAccountType (db : DB) (input : InputLedgerAccountType) :
    Except LedgerErr Unit :=
  if truthyId input.parentLedgerAccountTypeId then
    match getSavedAccountTypeById db (input.parentLedgerAccountTypeId.getD 0) with
    | .error e => .error e
    | .ok parentAccount =>
        if isNullish parentAccount then
          .error (.ledgerError "Parent account type not found")
        else if parentAccount.normalBalance ≠ input.normalBalance then
          .error (.ledgerError "Parent account type must have the same normal balance")
        else
          .ok ()
  else
    .ok ()

/-- Embedding of `insertAccountType` (`TypeormLedgerStorage.ts:446-506`).  The database is
threaded through explicitly: an error outcome leaves it exactly as received,
because every failure in the source occurs before the INSERT. -/
def insertAccountType (db : DB) (input : InputLedgerAccountType) :
    Except LedgerErr PersistedLedgerAccountType × DB :=
  match findAccountTypeBySlug db input.slug with
  | .error e => (.error e, db)
  | .ok existingAccount =>
    if (match existingAccount with
        | some t => !t.isEntityLedgerAccount
        | none => false) then
      (.error (.ledgerError ("Account type " ++ input.slug ++ " already exists.")), db)
    else
      match checkParentAccountType db input with
      | .error e => (.error e, db)
      | .ok () =>
        let id := db.nextId
        let row : AccountTypeRow :=
          { id, slug := input.slug, name := input.name,
            description := some input.description,
            normalBalance := input.normalBalance,
            isEntityLedgerAccount := input.isEntityLedgerAccount,
            parentLedgerAccountTypeId := input.parentLedgerAccountTypeId }
        (.ok { id, slug := input.slug, name := input.name,
               description := input.description,
               normalBalance := input.normalBalance,
               isEntityLedgerAccount := input.isEntityLedgerAccount,
               parentLedgerAccountTypeId := input.parentLedgerAccountTypeId },
         { db with accountTypes := db.accountTypes ++ [row],
                   nextId := db.nextId + 1,
                   writeLog := db.writeLog ++ [.accountTypeRow id] })

/-! ## The transaction-participation protocol (`withTransaction`) -/

/-- A transaction-lifecycle call issued on the runner. -/
inductive TxOp where
  | start
  | commit
  | rollback
deriving DecidableEq, Repr

/-- The storage configuration fixed at construction:
`manageTransaction` (`options.manageTransaction ?? true`), and what
`getTransactionRunner()` finds — `none` when no runner with
start/commit/rollback methods is reachable, `some active` for a transactional
runner whose `isTransactionActive` reads `active`. -/
structure StorageConfig where
  manageTransaction : Bool
  txRunner : Option Bool
deriving DecidableEq, Repr

/-- The constructor's protocol check (`TypeormLedgerStorage.ts:141-145`):
`manageTransaction` without a transactional runner is refused. -/
def mkStorage (manageTransaction : Bool) (txRunner : Option Bool) :
    Except LedgerErr StorageConfig :=
  if manageTransaction && txRunner.isNone then
    .error (.ledgerError "manageTransaction requires a QueryRunner with transaction methods")
  else
    .ok { manageTransaction, txRunner }

/-- Embedding of `withTransaction` (`TypeormLedgerStorage.ts:741-767`).  The routine reads
and writes the database; a SQL `ROLLBACK` restores the database that was
current at `startTransaction`, so the rollback arm returns the incoming `db`.
The second component lists the lifecycle calls issued on the runner. -/
def withTransaction {α : Type} (cfg : StorageConfig)
    (routine : DB → Except LedgerErr α × DB) (db : DB) :
    (Except LedgerErr α × DB) × List TxOp :=
  if !cfg.manageTransaction then
    (routine db, [])
  else
    match cfg.txRunner with
    | none =>
        ((.error (.ledgerError
            "manageTransaction requires a QueryRunner with transaction methods"), db), [])
    | some alreadyActive =>
        if alreadyActive then
          (routine db, [])
        else
          match routine db with
          | (.ok a, db') => ((.ok a, db'), [.start, .commit])
          | (.error e, _) => ((.error e, db), [.start, .rollback])

/-! ## Account resolution and `insertTransaction` -/

/-- The closed set of account-reference variants
(`account instanceof SystemAccountRef` / `instanceof EntityAccountRef`). -/
inductive LedgerAccountRefV where
  | system (r : SystemAccountRefV)
  | entity (r : EntityAccountRefV)
deriving DecidableEq, Repr

/-- The raw result of the stored function `ledger_account_id`, as
`resolveLedgerAccountId` queries it: `none` models a `NULL` id. -/
def storedResolve (db : DB) (ledgerId : Nat) : LedgerAccountRefV → Option Nat
  | .system r => db.systemResolve.lookup (ledgerId, r.accountSlug)
  | .entity r => db.entityResolve.lookup (ledgerId, r.name, externalIdToString r.externalId)

/-- The slug of a reference (`account.accountSlug`), used in error messages. -/
def refAccountSlug : LedgerAccountRefV → String
  | .system r => r.accountSlug
  | .entity r => r.accountSlug

/-- Embedding of `resolveLedgerAccountId` (`TypeormLedgerStorage.ts:609-640`): query the
stored function, and throw `LedgerNotFoundError` when `!row?.id` — which is
truthy both for a `NULL` id and for an id of `0`. -/
def resolveLedgerAccountId (db : DB) (ledgerId : Nat) (account : LedgerAccountRefV) :
    Except LedgerErr Nat :=
  match storedResolve db ledgerId account with
  | none =>
      .error (.ledgerNotFound ("Account " ++ refAccountSlug account ++ " not found"))
  | some id =>
      if id = 0 then
        .error (.ledgerNotFound ("Account " ++ refAccountSlug account ++ " not found"))
      else
        .ok id

/-- An entry as `insertTransaction` consumes it.  The `Unit` money class is
not under `src/`; only `entry.amount.toFullPrecision()` is used here, so the
entry carries that full-precision string directly. -/
structure Entry where
  account : LedgerAccountRefV
  action : NormalBalance
  amountFullPrecision : String
deriving DecidableEq, Repr

/-- The `Transaction` aggregate.  Its class file is not under `src/`; the
fields are the ones `insertTransaction` reads, with
`transactionDoubleEntries.flatEntries()` modelled as the list of entries it
yields (`flatEntries` per the spec preserves push order). -/
structure Transaction where
  ledgerSlug : String
  description : Option String
  postedAt : Option Nat
  flatEntries : List Entry
deriving DecidableEq, Repr

/-- Modelled from the spec: the `Transaction` constructor (its class file is
not under `src/`): `postedAt (defaults to creation time)` — a transaction
constructed at `constructionTime` without a supplied timestamp carries
`constructionTime` as its `postedAt`. -/
def mkTransaction (ledgerSlug : String) (description : Option String)
    (suppliedPostedAt : Option Nat) (constructionTime : Nat)
    (flatEntries : List Entry) : Transaction :=
  { ledgerSlug, description,
    postedAt := some (suppliedPostedAt.getD constructionTime),
    flatEntries }

/-- The projection `PersistedTransaction`. -/
structure PersistedTransaction where
  id : Nat
  ledgerId : Nat
  postedAt : Nat
  description : Option String
deriving DecidableEq, Repr

/-- The entry-insertion loop of `insertTransaction`
(`TypeormLedgerStorage.ts:567-586`): resolve each entry's account and insert
its row, stopping at the first failure. -/
def insertEntries (ledgerId ledgerTransactionId : Nat) :
    List Entry → DB → Except LedgerErr Unit × DB
  | [], db => (.ok (), db)
  | entry :: rest, db =>
      match resolveLedgerAccountId db ledgerId entry.account with
      | .error e => (.error e, db)
      | .ok ledgerAccountId =>
          let row : EntryRow :=
            { ledgerTransactionId, ledgerAccountId,
              action := entry.action, amount := entry.amountFullPrecision }
          insertEntries ledgerId ledgerTransactionId rest
            { db with entries := db.entries ++ [row],
                      writeLog := db.writeLog ++
                        [.entryRow ledgerTransactionId ledgerAccountId
                          entry.action entry.amountFullPrecision] }

/-- The routine `insertTransaction` runs inside `withTransaction`
(`TypeormLedgerStorage.ts:557-594`): insert the transaction row (RETURNING its
id), then the entry rows. -/
def insertTransactionRoutine (tx : Transaction) (ledgerId postedAt : Nat)
    (db : DB) : Except LedgerErr PersistedTransaction × DB :=
  let ledgerTransactionId := db.nextId
  let txRow : TransactionRow :=
    { id := ledgerTransactionId, ledgerId, postedAt, description := tx.description }
  let db₁ : DB :=
    { db with transactions := db.transactions ++ [txRow],
              nextId := db.nextId + 1,
              writeLog := db.writeLog ++
                [.txRow ledgerTransactionId ledgerId postedAt tx.description] }
  match insertEntries ledgerId ledgerTransactionId tx.flatEntries db₁ with
  | (.error e, db₂) => (.error e, db₂)
  | (.ok (), db₂) =>
      (.ok { id := ledgerTransactionId, ledgerId, postedAt,
             description := tx.description }, db₂)

/-- Embedding of `insertTransaction` (`TypeormLedgerStorage.ts:549-595`): resolve the
ledger by slug (before any write and before `withTransaction`), default the
timestamp (`postedAt ?? new Date()`, `now` being the wall clock at the call),
then run the write steps under `withTransaction`. -/
def insertTransaction (cfg : StorageConfig) (db : DB) (tx : Transaction)
    (now : Nat) : (Except LedgerErr PersistedTransaction × DB) × List TxOp :=
  match getLedgerIdBySlug db tx.ledgerSlug with
  | .error e => ((.error e, db), [])
  | .ok ledger =>
      let postedAt := tx.postedAt.getD now
      withTransaction cfg (insertTransactionRoutine tx ledger.id postedAt) db

/-! ## `release()` -/

/-- The state of a `PgQueryRunner` (`src/tests/helpers/PgQueryRunner.ts`): a
possibly-held pool client and the pool's ended flag. -/
structure PgRunnerState where
  client : Option Nat
  poolEnded : Bool
  isTransactionActive : Bool
deriving DecidableEq, Repr

/-- Embedding of `PgQueryRunner.release` (`PgQueryRunner.ts:60-67`): release the client if
one is held, then end the pool. -/
def pgRelease (s : PgRunnerState) : PgRunnerState :=
  let s₁ := match s.client with
            | some _ => { s with client := none }
            | none => s
  { s₁ with poolEnded := true }

/-- What the storage's `release()` can reach: `runner` is `some state` when
the runner exposes `release()` (holding that runner's state), `none`
otherwise; likewise `managerRunner` for `manager.queryRunner`. -/
structure StorageResources where
  runner : Option PgRunnerState
  managerRunner : Option PgRunnerState
deriving DecidableEq, Repr

/-- Embedding of `TypeormLedgerStorage.release` (`TypeormLedgerStorage.ts:601-607`):
delegate to `runner.release` when present, else to
`manager.queryRunner.release` when present, else do nothing. -/
def storageRelease (r : StorageResources) : StorageResources :=
  match r.runner with
  | some s => { r with runner := some (pgRelease s) }
  | none =>
      match r.managerRunner with
      | some s => { r with managerRunner := some (pgRelease s) }
      | none => r

/-! ## Helper lemmas -/

/-- Two error messages that share no first character differ; used to show the
variable-middle message of `getSavedAccountTypeById` is never the
parent-not-found message. -/
theorem accountTypeIdMsg_ne_parentNotFound (mid : String) :
    ("Account type ID: " ++ mid ++ " not found") ≠ "Parent account type not found" := by
  intro h
  have h2 := congrArg String.data h
  simp [String.data_append] at h2

theorem accountTypeExistsMsg_ne_parentNotFound (slug : String) :
    ("Account type " ++ slug ++ " already exists.") ≠ "Parent account type not found" := by
  intro h
  have h2 := congrArg String.data h
  simp [String.data_append] at h2

/-- The resolution maps ignore the row tables: inserting transaction or entry
rows does not change what the stored function `ledger_account_id` returns. -/
theorem storedResolve_set_rows (db : DB) (ts : List TransactionRow)
    (es : List EntryRow) (n : Nat) (ws : List WriteOp) (lid : Nat)
    (a : LedgerAccountRefV) :
    storedResolve
      { db with transactions := ts, entries := es, nextId := n, writeLog := ws }
      lid a = storedResolve db lid a := by
  cases a <;> rfl

/-- Inverting `withTransaction` on success: whichever arm ran, a successful
outer result is exactly the routine's result. -/
theorem withTransaction_ok_inv {α : Type} (cfg : StorageConfig)
    (routine : DB → Except LedgerErr α × DB) (db db' : DB) (a : α)
    (ops : List TxOp)
    (h : withTransaction cfg routine db = ((.ok a, db'), ops)) :
    routine db = (.ok a, db') := by
  unfold withTransaction at h
  by_cases hm : cfg.manageTransaction
  · simp [hm] at h
    cases hr : cfg.txRunner with
    | none => simp [hr] at h
    | some active =>
        simp [hr] at h
        cases active with
        | true => simp at h; exact h.1
        | false =>
            simp at h
            cases hrout : routine db with
            | mk r dbr =>
                rw [hrout] at h
                cases r with
                | ok v =>
                    simp at h
                    rw [h.1.1, h.1.2]
                | error e => simp at h
  · simp [hm] at h
    exact h.1

/-- A `withTransaction` call issues one of three lifecycle-call sequences. -/
theorem withTransaction_ops {α : Type} (cfg : StorageConfig)
    (routine : DB → Except LedgerErr α × DB) (db : DB) :
    (withTransaction cfg routine db).2 = [] ∨
    (withTransaction cfg routine db).2 = [.start, .commit] ∨
    (withTransaction cfg routine db).2 = [.start, .rollback] := by
  unfold withTransaction
  by_cases hm : cfg.manageTransaction
  · simp [hm]
    cases cfg.txRunner with
    | none => simp
    | some active =>
        cases active with
        | true => simp
        | false =>
            cases hrout : routine db with
            | mk r dbr => cases r <;> simp
  · simp [hm]

/-- An empty database, used by the concrete witnesses. -/
def emptyDB : DB :=
  { ledgers := [], accountTypes := [], transactions := [], entries := [],
    systemResolve := [], entityResolve := [], nextId := 1, writeLog := [] }

/-! ## Claim theorems -/

/-- C3: the spec's name rule admits hyphens (`letters/digits/underscores/
hyphens`), and the repository's own test
(`src/unnamed/part_000`, `create system account with hyphenated name`)
expects `SystemAccountRef(ledgerSlug, 'SYSTEM-CURRENT-ASSETS')` to succeed
with `accountSlug = 'SYSTEM-CURRENT-ASSETS'` — but `VALID_NAME_REGEX`
uses `\w`, which has no hyphen, so `validateName` rejects the name and
construction fails with the account-name-invalid error. -/
theorem c3_hyphenated_name_rejected_by_code :
    specValidName "SYSTEM-CURRENT-ASSETS" = true ∧
    validateName "SYSTEM-CURRENT-ASSETS" =
      .error (.ledgerAccountError
        "Account name is invalid. Use letters, digits, or underscores, and start/end with a letter or digit. Name: SYSTEM-CURRENT-ASSETS") ∧
    mkSystemAccountRef "ledger" "SYSTEM-CURRENT-ASSETS" =
      .error (.ledgerAccountError
        "Account name is invalid. Use letters, digits, or underscores, and start/end with a letter or digit. Name: SYSTEM-CURRENT-ASSETS") := by
  exact ⟨rfl, rfl, rfl⟩

/-- C4: with a valid name, `EntityAccountRef` construction succeeds exactly on
external ids that are finite numbers or non-blank strings free of whitespace
and colons, storing the input id and composing
`accountSlug = name + ":" + String(id)`; every other id fails with the
invalid-external-id error. -/
theorem c4_entity_external_id_validation
    (ledgerSlug name : String) (id : EntityExternalId)
    (hname : validateName name = .ok ()) :
    (specValidExternalId id = true →
       mkEntityAccountRef ledgerSlug name id =
         .ok { ledgerSlug := ledgerSlug, name := name, externalId := id,
               accountSlug := name ++ ":" ++ externalIdToString id }) ∧
    (specValidExternalId id = false →
       mkEntityAccountRef ledgerSlug name id =
         .error (.ledgerAccountError externalIdErrorMessage)) := by
  constructor
  · intro hvalid
    cases id with
    | num v =>
        cases v with
        | finite n => simp [mkEntityAccountRef, hname, normalizeExternalId]; rfl
        | nan => simp [specValidExternalId] at hvalid
        | posInf => simp [specValidExternalId] at hvalid
        | negInf => simp [specValidExternalId] at hvalid
    | str s =>
        have h1 : isBlankString s = false := by
          simp [specValidExternalId] at hvalid; exact hvalid.1
        have h2 : containsColonOrWhitespace s = false := by
          simp [specValidExternalId] at hvalid; exact hvalid.2
        simp [mkEntityAccountRef, hname, normalizeExternalId, h1, h2]; rfl
  · intro hinvalid
    cases id with
    | num v =>
        cases v with
        | finite n => simp [specValidExternalId] at hinvalid
        | nan => simp [mkEntityAccountRef, hname, normalizeExternalId]; rfl
        | posInf => simp [mkEntityAccountRef, hname, normalizeExternalId]; rfl
        | negInf => simp [mkEntityAccountRef, hname, normalizeExternalId]; rfl
    | str s =>
        by_cases hb : isBlankString s
        · simp [mkEntityAccountRef, hname, normalizeExternalId, hb]; rfl
        · have hc : containsColonOrWhitespace s = true := by
            simp [specValidExternalId, hb] at hinvalid
            exact hinvalid
          simp [mkEntityAccountRef, hname, normalizeExternalId, hb, hc]; rfl

theorem c4_entity_external_id_validation_witness :
    mkEntityAccountRef "l" "USER_RECEIVABLES" (.str "2") =
      .ok { ledgerSlug := "l", name := "USER_RECEIVABLES",
            externalId := .str "2",
            accountSlug := "USER_RECEIVABLES" ++ ":" ++
              externalIdToString (.str "2") } ∧
    mkEntityAccountRef "l" "USER_RECEIVABLES" (.str "a b") =
      .error (.ledgerAccountError externalIdErrorMessage) :=
  ⟨(c4_entity_external_id_validation "l" "USER_RECEIVABLES" (.str "2") rfl).1 rfl,
   (c4_entity_external_id_validation "l" "USER_RECEIVABLES" (.str "a b") rfl).2 rfl⟩

/-- Releasing an already-released `PgQueryRunner` state changes nothing
further. -/
theorem pgRelease_idem (s : PgRunnerState) :
    pgRelease (pgRelease s) = pgRelease s := by
  unfold pgRelease
  cases hc : s.client <;> simp [hc]

/-- C9: `release()` is idempotent — releasing twice reaches the same state as
releasing once (so further calls do not fail), and when the storage holds
nothing releasable the call is a no-op. -/
theorem c9_release_idempotent (r : StorageResources) :
    storageRelease (storageRelease r) = storageRelease r ∧
    (r.runner = none → r.managerRunner = none → storageRelease r = r) := by
  constructor
  · cases hr : r.runner with
    | some s => simp [storageRelease, hr, pgRelease_idem]
    | none =>
        cases hm : r.managerRunner with
        | some s => simp [storageRelease, hr, hm, pgRelease_idem]
        | none => simp [storageRelease, hr, hm]
  · intro h1 h2
    simp [storageRelease, h1, h2]

theorem c9_release_idempotent_witness :
    storageRelease (storageRelease ⟨none, none⟩) = storageRelease ⟨none, none⟩ ∧
    storageRelease ⟨none, none⟩ = ⟨none, none⟩ :=
  ⟨(c9_release_idempotent ⟨none, none⟩).1,
   (c9_release_idempotent ⟨none, none⟩).2 rfl rfl⟩

/-! ### Concrete fixtures for the remaining witnesses -/

def wLedger : LedgerRow :=
  { id := 1, slug := "main", name := "Main", description := "",
    ledgerCurrencyId := 1 }

/-- A database with one ledger and one resolvable system account. -/
def wDb : DB :=
  { ledgers := [wLedger], accountTypes := [], transactions := [], entries := [],
    systemResolve := [((1, "SYSTEM_INCOME"), 7)], entityResolve := [],
    nextId := 2, writeLog := [] }

def wEntryGood : Entry :=
  { account := .system { ledgerSlug := "main", accountSlug := "SYSTEM_INCOME" },
    action := .credit, amountFullPrecision := "100.00" }

def wEntryBad : Entry :=
  { account := .system { ledgerSlug := "main", accountSlug := "MISSING" },
    action := .debit, amountFullPrecision := "100.00" }

def wTxGood : Transaction :=
  { ledgerSlug := "main", description := none, postedAt := some 5,
    flatEntries := [wEntryGood] }

def wTxBad : Transaction :=
  { ledgerSlug := "main", description := none, postedAt := some 5,
    flatEntries := [wEntryBad] }

/-- C1: when the storage owns the transaction boundary
(`manageTransaction = true`, no transaction active), a failing write routine
yields `[start, rollback]` on the runner, the database reverts to its
pre-call state, and the routine's error is re-raised unmodified; when the
boundary is not owned (a transaction already active, or
`manageTransaction = false`), the error is re-raised unmodified with no
lifecycle call at all — in particular no rollback. -/
theorem c1_failure_rollback_protocol (db : DB) (tx : Transaction) (now : Nat)
    (ledger : LedgerRow) (e : LedgerErr) (db' : DB)
    (hledger : db.ledgers.filter (fun l => l.slug = tx.ledgerSlug) = [ledger])
    (hfail : insertTransactionRoutine tx ledger.id (tx.postedAt.getD now) db =
      (.error e, db')) :
    insertTransaction ⟨true, some false⟩ db tx now =
      ((.error e, db), [.start, .rollback]) ∧
    insertTransaction ⟨true, some true⟩ db tx now = ((.error e, db'), []) ∧
    (∀ r, insertTransaction ⟨false, r⟩ db tx now = ((.error e, db'), [])) := by
  have hg : getLedgerIdBySlug db tx.ledgerSlug = .ok ledger := by
    unfold getLedgerIdBySlug
    rw [hledger]
    rfl
  refine ⟨?_, ?_, ?_⟩
  · unfold insertTransaction
    rw [hg]
    simp [withTransaction, hfail]
  · unfold insertTransaction
    rw [hg]
    simp [withTransaction, hfail]
  · intro r
    unfold insertTransaction
    rw [hg]
    simp [withTransaction, hfail]

theorem c1_failure_rollback_protocol_witness :
    insertTransaction ⟨true, some false⟩ wDb wTxBad 9 =
      ((.error (.ledgerNotFound "Account MISSING not found"), wDb),
        [.start, .rollback]) ∧
    insertTransaction ⟨true, some true⟩ wDb wTxBad 9 =
      ((.error (.ledgerNotFound "Account MISSING not found"),
        (insertTransactionRoutine wTxBad wLedger.id (wTxBad.postedAt.getD 9) wDb).2),
        []) ∧
    insertTransaction ⟨false, some true⟩ wDb wTxBad 9 =
      ((.error (.ledgerNotFound "Account MISSING not found"),
        (insertTransactionRoutine wTxBad wLedger.id (wTxBad.postedAt.getD 9) wDb).2),
        []) := by
  have h := c1_failure_rollback_protocol wDb wTxBad 9 wLedger
    (.ledgerNotFound "Account MISSING not found")
    (insertTransactionRoutine wTxBad wLedger.id (wTxBad.postedAt.getD 9) wDb).2
    rfl rfl
  exact ⟨h.1, h.2.1, h.2.2 (some true)⟩

/-- C2: the storage never double-starts or double-commits.  With
`manageTransaction = false`, or with a transaction already active on the
runner, the write steps run inline and no lifecycle call is issued; only with
`manageTransaction = true` and no active transaction does the storage start
one and commit it on success; and across every configuration the lifecycle
log never contains two starts, two commits, or two rollbacks. -/
theorem c2_no_double_start_or_commit (db : DB) (tx : Transaction) (now : Nat) :
    (∀ r ledger, db.ledgers.filter (fun l => l.slug = tx.ledgerSlug) = [ledger] →
        insertTransaction ⟨false, r⟩ db tx now =
          (insertTransactionRoutine tx ledger.id (tx.postedAt.getD now) db, [])) ∧
    (∀ ledger, db.ledgers.filter (fun l => l.slug = tx.ledgerSlug) = [ledger] →
        insertTransaction ⟨true, some true⟩ db tx now =
          (insertTransactionRoutine tx ledger.id (tx.postedAt.getD now) db, [])) ∧
    (∀ ledger p db', db.ledgers.filter (fun l => l.slug = tx.ledgerSlug) = [ledger] →
        insertTransactionRoutine tx ledger.id (tx.postedAt.getD now) db = (.ok p, db') →
        insertTransaction ⟨true, some false⟩ db tx now =
          ((.ok p, db'), [.start, .commit])) ∧
    (∀ cfg : StorageConfig,
        (insertTransaction cfg db tx now).2.count .start ≤ 1 ∧
        (insertTransaction cfg db tx now).2.count .commit ≤ 1 ∧
        (insertTransaction cfg db tx now).2.count .rollback ≤ 1) := by
  refine ⟨?_, ?_, ?_, ?_⟩
  · intro r ledger hledger
    have hg : getLedgerIdBySlug db tx.ledgerSlug = .ok ledger := by
      unfold getLedgerIdBySlug; rw [hledger]; rfl
    unfold insertTransaction
    rw [hg]
    simp [withTransaction]
  · intro ledger hledger
    have hg : getLedgerIdBySlug db tx.ledgerSlug = .ok ledger := by
      unfold getLedgerIdBySlug; rw [hledger]; rfl
    unfold insertTransaction
    rw [hg]
    simp [withTransaction]
  · intro ledger p db' hledger hok
    have hg : getLedgerIdBySlug db tx.ledgerSlug = .ok ledger := by
      unfold getLedgerIdBySlug; rw [hledger]; rfl
    unfold insertTransaction
    rw [hg]
    simp [withTransaction, hok]
  · intro cfg
    unfold insertTransaction
    cases hg : getLedgerIdBySlug db tx.ledgerSlug with
    | error e => simp
    | ok ledger =>
        rcases withTransaction_ops cfg
            (insertTransactionRoutine tx ledger.id (tx.postedAt.getD now)) db
          with h | h | h <;> rw [h] <;> refine ⟨?_, ?_, ?_⟩ <;> decide

theorem c2_no_double_start_or_commit_witness :
    insertTransaction ⟨false, some true⟩ wDb wTxGood 9 =
      (insertTransactionRoutine wTxGood wLedger.id (wTxGood.postedAt.getD 9) wDb, []) ∧
    insertTransaction ⟨true, some true⟩ wDb wTxGood 9 =
      (insertTransactionRoutine wTxGood wLedger.id (wTxGood.postedAt.getD 9) wDb, []) ∧
    insertTransaction ⟨true, some false⟩ wDb wTxGood 9 =
      ((.ok { id := 2, ledgerId := 1, postedAt := 5, description := none },
        (insertTransactionRoutine wTxGood wLedger.id (wTxGood.postedAt.getD 9) wDb).2),
        [.start, .commit]) ∧
    (insertTransaction ⟨true, some false⟩ wDb wTxGood 9).2.count .start ≤ 1 := by
  have h := c2_no_double_start_or_commit wDb wTxGood 9
  exact ⟨h.1 (some true) wLedger rfl, h.2.1 wLedger rfl,
    h.2.2.1 wLedger { id := 2, ledgerId := 1, postedAt := 5, description := none }
      (insertTransactionRoutine wTxGood wLedger.id (wTxGood.postedAt.getD 9) wDb).2
      rfl rfl,
    (h.2.2.2 ⟨true, some false⟩).1⟩

/-- C7: when the transaction's ledger slug resolves to no persisted ledger,
`insertTransaction` fails with the ledger-not-found error before any write:
the database is unchanged and no transaction lifecycle call was issued. -/
theorem c7_ledger_not_found_before_any_write (cfg : StorageConfig) (db : DB)
    (tx : Transaction) (now : Nat)
    (h : db.ledgers.filter (fun l => l.slug = tx.ledgerSlug) = []) :
    insertTransaction cfg db tx now =
      ((.error (.ledgerNotFound ("Ledger " ++ tx.ledgerSlug ++ " is not found")),
        db), []) := by
  unfold insertTransaction getLedgerIdBySlug
  rw [h]
  rfl

theorem c7_ledger_not_found_before_any_write_witness :
    insertTransaction ⟨true, some false⟩ emptyDB wTxBad 9 =
      ((.error (.ledgerNotFound ("Ledger " ++ wTxBad.ledgerSlug ++ " is not found")),
        emptyDB), []) :=
  c7_ledger_not_found_before_any_write ⟨true, some false⟩ emptyDB wTxBad 9 rfl

/-- The write routine stamps every persisted projection with the `postedAt` it
was given. -/
theorem insertTransactionRoutine_postedAt (tx : Transaction) (lid pa : Nat)
    (db : DB) (p : PersistedTransaction) (db' : DB)
    (h : insertTransactionRoutine tx lid pa db = (.ok p, db')) :
    p.postedAt = pa := by
  simp only [insertTransactionRoutine] at h
  split at h
  · simp at h
  · simp at h
    rw [← h.1]

/-- C5: a transaction constructed without a supplied timestamp carries its
construction time, so `insertTransaction` records that construction time: the
call's outcome is independent of the wall clock at persistence time, and a
successful call returns a projection stamped with the construction time. -/
theorem c5_posted_at_is_construction_time (cfg : StorageConfig) (db : DB)
    (ledgerSlug : String) (description : Option String)
    (constructionTime : Nat) (entries : List Entry) (now now' : Nat) :
    insertTransaction cfg db
        (mkTransaction ledgerSlug description none constructionTime entries) now =
      insertTransaction cfg db
        (mkTransaction ledgerSlug description none constructionTime entries) now' ∧
    (∀ p db' ops,
        insertTransaction cfg db
            (mkTransaction ledgerSlug description none constructionTime entries) now =
          ((.ok p, db'), ops) →
        p.postedAt = constructionTime) := by
  constructor
  · simp [insertTransaction, mkTransaction]
  · intro p db' ops h
    unfold insertTransaction at h
    cases hg : getLedgerIdBySlug db
        (mkTransaction ledgerSlug description none constructionTime entries).ledgerSlug with
    | error e => rw [hg] at h; simp at h
    | ok ledger =>
        rw [hg] at h
        simp only [mkTransaction, Option.getD_some] at h
        exact insertTransactionRoutine_postedAt _ _ _ _ _ _
          (withTransaction_ok_inv _ _ _ _ _ _ h)

theorem c5_posted_at_is_construction_time_witness :
    (insertTransaction ⟨true, some false⟩ wDb
        (mkTransaction "main" none none 5 [wEntryGood]) 9 =
      insertTransaction ⟨true, some false⟩ wDb
        (mkTransaction "main" none none 5 [wEntryGood]) 77) ∧
    ({ id := 2, ledgerId := 1, postedAt := 5, description := none } :
        PersistedTransaction).postedAt = 5 := by
  have h := c5_posted_at_is_construction_time ⟨true, some false⟩ wDb
    "main" none 5 [wEntryGood] 9 77
  refine ⟨h.1, ?_⟩
  exact h.2 { id := 2, ledgerId := 1, postedAt := 5, description := none }
    (insertTransaction ⟨true, some false⟩ wDb
      (mkTransaction "main" none none 5 [wEntryGood]) 9).1.2
    [.start, .commit] rfl

/-- The entry loop, when every account of the list resolves (to a nonzero id),
appends exactly one entry row per entry, in list order, carrying the resolved
account id and the full-precision amount. -/
theorem insertEntries_spec (ledgerId txId : Nat) (entries : List Entry) :
    ∀ (db : DB),
    (∀ e ∈ entries, ∃ i, storedResolve db ledgerId e.account = some i ∧ i ≠ 0) →
    insertEntries ledgerId txId entries db =
      (.ok (),
        { db with
          entries := db.entries ++ entries.map (fun e =>
            { ledgerTransactionId := txId,
              ledgerAccountId := (storedResolve db ledgerId e.account).getD 0,
              action := e.action, amount := e.amountFullPrecision }),
          writeLog := db.writeLog ++ entries.map (fun e =>
            .entryRow txId ((storedResolve db ledgerId e.account).getD 0)
              e.action e.amountFullPrecision) }) := by
  induction entries with
  | nil => intro db _; simp [insertEntries]
  | cons entry rest ih =>
      intro db h
      obtain ⟨i, hi, hne⟩ := h entry (by simp)
      have hres : resolveLedgerAccountId db ledgerId entry.account = .ok i := by
        simp [resolveLedgerAccountId, hi, hne]
      simp only [insertEntries, hres]
      rw [ih { db with
            entries := db.entries ++
              [{ ledgerTransactionId := txId, ledgerAccountId := i,
                 action := entry.action, amount := entry.amountFullPrecision }],
            writeLog := db.writeLog ++
              [.entryRow txId i entry.action entry.amountFullPrecision] }
          (fun e he => by
            obtain ⟨j, hj, hjne⟩ := h e (List.mem_cons_of_mem _ he)
            exact ⟨j, by rw [storedResolve_set_rows]; exact hj, hjne⟩)]
      simp only [storedResolve_set_rows, hi, Option.getD_some, List.map_cons]
      simp [List.append_assoc]

/-- C8: a successful `insertTransaction` call first inserts the transaction
row, then one entry row per element of the flattened entry sequence, in
exactly that order, each entry row carrying the entry's full-precision amount
and the account id obtained by resolving the entry's account reference. -/
theorem c8_write_order (cfg : StorageConfig) (db : DB) (tx : Transaction)
    (now : Nat) (ledger : LedgerRow)
    (hledger : db.ledgers.filter (fun l => l.slug = tx.ledgerSlug) = [ledger])
    (hrun : cfg.manageTransaction = false ∨ (∃ b, cfg.txRunner = some b))
    (hresolve : ∀ e ∈ tx.flatEntries, ∃ i,
        storedResolve db ledger.id e.account = some i ∧ i ≠ 0) :
    ∃ db' ops,
      insertTransaction cfg db tx now =
        ((.ok { id := db.nextId, ledgerId := ledger.id,
                postedAt := tx.postedAt.getD now,
                description := tx.description }, db'), ops) ∧
      db'.writeLog = db.writeLog ++
        WriteOp.txRow db.nextId ledger.id (tx.postedAt.getD now) tx.description ::
        tx.flatEntries.map (fun e =>
          WriteOp.entryRow db.nextId ((storedResolve db ledger.id e.account).getD 0)
            e.action e.amountFullPrecision) ∧
      db'.entries = db.entries ++ tx.flatEntries.map (fun e =>
        { ledgerTransactionId := db.nextId,
          ledgerAccountId := (storedResolve db ledger.id e.account).getD 0,
          action := e.action, amount := e.amountFullPrecision }) := by
  have hg : getLedgerIdBySlug db tx.ledgerSlug = .ok ledger := by
    unfold getLedgerIdBySlug; rw [hledger]; rfl
  have hroutine :
      insertTransactionRoutine tx ledger.id (tx.postedAt.getD now) db =
        (.ok { id := db.nextId, ledgerId := ledger.id,
               postedAt := tx.postedAt.getD now, description := tx.description },
         { db with
           transactions := db.transactions ++
             [{ id := db.nextId, ledgerId := ledger.id,
                postedAt := tx.postedAt.getD now, description := tx.description }],
           nextId := db.nextId + 1,
           entries := db.entries ++ tx.flatEntries.map (fun e =>
             { ledgerTransactionId := db.nextId,
               ledgerAccountId := (storedResolve db ledger.id e.account).getD 0,
               action := e.action, amount := e.amountFullPrecision }),
           writeLog := db.writeLog ++
             WriteOp.txRow db.nextId ledger.id (tx.postedAt.getD now) tx.description ::
             tx.flatEntries.map (fun e =>
               WriteOp.entryRow db.nextId
                 ((storedResolve db ledger.id e.account).getD 0)
                 e.action e.amountFullPrecision) }) := by
    simp only [insertTransactionRoutine]
    rw [insertEntries_spec ledger.id db.nextId tx.flatEntries
        { db with
          transactions := db.transactions ++
            [{ id := db.nextId, ledgerId := ledger.id,
               postedAt := tx.postedAt.getD now, description := tx.description }],
          nextId := db.nextId + 1,
          writeLog := db.writeLog ++
            [.txRow db.nextId ledger.id (tx.postedAt.getD now) tx.description] }
        (fun e he => by
          obtain ⟨i, hi, hne⟩ := hresolve e he
          exact ⟨i, by rw [storedResolve_set_rows]; exact hi, hne⟩)]
    simp only [storedResolve_set_rows]
    simp [List.append_assoc]
  have hstep : ∃ ops, insertTransaction cfg db tx now =
      (insertTransactionRoutine tx ledger.id (tx.postedAt.getD now) db, ops) := by
    rcases hrun with hm | ⟨b, hb⟩
    · exact ⟨[], by unfold insertTransaction; rw [hg]; simp [withTransaction, hm]⟩
    · by_cases hm : cfg.manageTransaction
      · cases b with
        | true =>
            exact ⟨[], by
              unfold insertTransaction; rw [hg]; simp [withTransaction, hm, hb]⟩
        | false =>
            exact ⟨[.start, .commit], by
              unfold insertTransaction; rw [hg]
              simp [withTransaction, hm, hb, hroutine]⟩
      · exact ⟨[], by unfold insertTransaction; rw [hg]; simp [withTransaction, hm]⟩
  obtain ⟨ops, hops⟩ := hstep
  refine ⟨{ db with
      transactions := db.transactions ++
        [{ id := db.nextId, ledgerId := ledger.id,
           postedAt := tx.postedAt.getD now, description := tx.description }],
      nextId := db.nextId + 1,
      entries := db.entries ++ tx.flatEntries.map (fun e =>
        { ledgerTransactionId := db.nextId,
          ledgerAccountId := (storedResolve db ledger.id e.account).getD 0,
          action := e.action, amount := e.amountFullPrecision }),
      writeLog := db.writeLog ++
        WriteOp.txRow db.nextId ledger.id (tx.postedAt.getD now) tx.description ::
        tx.flatEntries.map (fun e =>
          WriteOp.entryRow db.nextId
            ((storedResolve db ledger.id e.account).getD 0)
            e.action e.amountFullPrecision) }, ops, ?_, ?_, ?_⟩
  · rw [hops, hroutine]
  · rfl
  · rfl

theorem c8_write_order_witness :
    ∃ db' ops,
      insertTransaction ⟨true, some false⟩ wDb wTxGood 9 =
        ((.ok { id := wDb.nextId, ledgerId := wLedger.id,
                postedAt := wTxGood.postedAt.getD 9,
                description := wTxGood.description }, db'), ops) ∧
      db'.writeLog = wDb.writeLog ++
        WriteOp.txRow wDb.nextId wLedger.id (wTxGood.postedAt.getD 9)
          wTxGood.description ::
        wTxGood.flatEntries.map (fun e =>
          WriteOp.entryRow wDb.nextId
            ((storedResolve wDb wLedger.id e.account).getD 0)
            e.action e.amountFullPrecision) ∧
      db'.entries = wDb.entries ++ wTxGood.flatEntries.map (fun e =>
        { ledgerTransactionId := wDb.nextId,
          ledgerAccountId := (storedResolve wDb wLedger.id e.account).getD 0,
          action := e.action, amount := e.amountFullPrecision }) :=
  c8_write_order ⟨true, some false⟩ wDb wTxGood 9 wLedger rfl
    (Or.inr ⟨false, rfl⟩)
    (by
      intro e he
      simp [wTxGood] at he
      subst he
      exact ⟨7, rfl, by decide⟩)

/-- C6: `insertAccountType` fails with the already-exists error when a
non-entity type with the same slug exists; an existing entity-flagged type
with the same slug does not block insertion; and a parent with a different
normal balance fails with the normal-balance-mismatch error before any row is
inserted (the database is returned unchanged). -/
theorem c6_insert_account_type_validation (db : DB)
    (input : InputLedgerAccountType) :
    (∀ t, db.accountTypes.filter (fun r => r.slug = input.slug) = [t] →
        t.isEntityLedgerAccount = false →
        insertAccountType db input =
          (.error (.ledgerError ("Account type " ++ input.slug ++ " already exists.")),
           db)) ∧
    (∀ t, db.accountTypes.filter (fun r => r.slug = input.slug) = [t] →
        t.isEntityLedgerAccount = true →
        input.parentLedgerAccountTypeId = none →
        (insertAccountType db input).1 =
          .ok { id := db.nextId, slug := input.slug, name := input.name,
                description := input.description,
                normalBalance := input.normalBalance,
                isEntityLedgerAccount := input.isEntityLedgerAccount,
                parentLedgerAccountTypeId := none }) ∧
    (∀ pid parentRow, input.parentLedgerAccountTypeId = some pid → pid ≠ 0 →
        db.accountTypes.filter (fun r => r.slug = input.slug) = [] →
        db.accountTypes.filter (fun r => r.id = pid) = [parentRow] →
        parentRow.normalBalance ≠ input.normalBalance →
        insertAccountType db input =
          (.error (.ledgerError "Parent account type must have the same normal balance"),
           db)) := by
  refine ⟨?_, ?_, ?_⟩
  · intro t hfilter hent
    unfold insertAccountType findAccountTypeBySlug
    rw [hfilter]
    simp [maybeOne, mapLedgerAccountType, hent,
      Bind.bind, Except.instMonad, Except.bind]
  · intro t hfilter hent hpar
    unfold insertAccountType findAccountTypeBySlug
    rw [hfilter]
    simp [maybeOne, mapLedgerAccountType, hent, checkParentAccountType, hpar,
      truthyId, Bind.bind, Except.instMonad, Except.bind]
  · intro pid parentRow hpid hpidne hslug hid hmis
    unfold insertAccountType findAccountTypeBySlug checkParentAccountType
      getSavedAccountTypeById
    rw [hslug, hpid]
    simp only [Option.getD_some]
    rw [hid]
    simp [maybeOne, mapLedgerAccountType, isNullish, truthyId, hmis, hpidne,
      Bind.bind, Except.instMonad, Except.bind]

def wTypeNonEntity : AccountTypeRow :=
  { id := 1, slug := "assets", name := "Assets", description := none,
    normalBalance := .debit, isEntityLedgerAccount := false,
    parentLedgerAccountTypeId := none }

def wTypeEntity : AccountTypeRow :=
  { id := 1, slug := "user", name := "User", description := none,
    normalBalance := .debit, isEntityLedgerAccount := true,
    parentLedgerAccountTypeId := none }

def wTypeParent : AccountTypeRow :=
  { id := 1, slug := "parent", name := "Parent", description := none,
    normalBalance := .credit, isEntityLedgerAccount := false,
    parentLedgerAccountTypeId := none }

def wDbTypeA : DB := { emptyDB with accountTypes := [wTypeNonEntity], nextId := 2 }

def wDbTypeB : DB := { emptyDB with accountTypes := [wTypeEntity], nextId := 2 }

def wDbTypeC : DB := { emptyDB with accountTypes := [wTypeParent], nextId := 2 }

def wInputA : InputLedgerAccountType :=
  { slug := "assets", name := "Assets", description := "",
    normalBalance := .debit, isEntityLedgerAccount := false,
    parentLedgerAccountTypeId := none }

def wInputB : InputLedgerAccountType :=
  { slug := "user", name := "User", description := "",
    normalBalance := .debit, isEntityLedgerAccount := true,
    parentLedgerAccountTypeId := none }

def wInputC : InputLedgerAccountType :=
  { slug := "child", name := "Child", description := "",
    normalBalance := .debit, isEntityLedgerAccount := false,
    parentLedgerAccountTypeId := some 1 }

theorem c6_insert_account_type_validation_witness :
    insertAccountType wDbTypeA wInputA =
      (.error (.ledgerError ("Account type " ++ wInputA.slug ++ " already exists.")),
       wDbTypeA) ∧
    (insertAccountType wDbTypeB wInputB).1 =
      .ok { id := wDbTypeB.nextId, slug := wInputB.slug, name := wInputB.name,
            description := wInputB.description,
            normalBalance := wInputB.normalBalance,
            isEntityLedgerAccount := wInputB.isEntityLedgerAccount,
            parentLedgerAccountTypeId := none } ∧
    insertAccountType wDbTypeC wInputC =
      (.error (.ledgerError "Parent account type must have the same normal balance"),
       wDbTypeC) :=
  ⟨(c6_insert_account_type_validation wDbTypeA wInputA).1 wTypeNonEntity rfl rfl,
   (c6_insert_account_type_validation wDbTypeB wInputB).2.1 wTypeEntity rfl rfl rfl,
   (c6_insert_account_type_validation wDbTypeC wInputC).2.2 1 wTypeParent rfl
     (by decide) rfl rfl (by decide)⟩

/-- Errors of `findAccountTypeBySlug`: it can only fail with the multiple-rows error. -/
theorem findAccountTypeBySlug_error_msg (db : DB) (slug : String) (e : LedgerErr)
    (h : findAccountTypeBySlug db slug = .error e) :
    e = .ledgerError "Expected at most one row" := by
  unfold findAccountTypeBySlug maybeOne at h
  rcases hl : db.accountTypes.filter (fun t => t.slug = slug) with _ | ⟨r, _ | ⟨r₂, rest⟩⟩ <;>
    rw [hl] at h <;> simp [Bind.bind, Except.instMonad, Except.bind] at h
  exact h.symm

/-- Errors of `getSavedAccountTypeById`: it fails only with the multiple-rows error or its
own `Account type ID: <id> not found` error — it never returns a null
value. -/
theorem getSavedAccountTypeById_error_msg (db : DB) (id : Nat) (e : LedgerErr)
    (h : getSavedAccountTypeById db id = .error e) :
    e = .ledgerError "Expected at most one row" ∨
    e = .ledgerError ("Account type ID: " ++ toString id ++ " not found") := by
  unfold getSavedAccountTypeById maybeOne at h
  rcases hl : db.accountTypes.filter (fun t => t.id = id) with _ | ⟨r, _ | ⟨r₂, rest⟩⟩ <;>
    rw [hl] at h <;> simp [Bind.bind, Except.instMonad, Except.bind] at h
  · exact Or.inr h.symm
  · exact Or.inl h.symm

/-- The `Parent account type not found` branch of the parent check can never
fire: `getSavedAccountTypeById` either throws or returns a (truthy) object. -/
theorem checkParent_never_parentNotFound (db : DB)
    (input : InputLedgerAccountType) :
    checkParentAccountType db input ≠
      .error (.ledgerError "Parent account type not found") := by
  intro hcontra
  unfold checkParentAccountType at hcontra
  by_cases ht : truthyId input.parentLedgerAccountTypeId
  · rw [if_pos ht] at hcontra
    cases hg : getSavedAccountTypeById db
        (input.parentLedgerAccountTypeId.getD 0) with
    | error e =>
        rw [hg] at hcontra
        simp at hcontra
        rcases getSavedAccountTypeById_error_msg _ _ _ hg with he | he
        · rw [he] at hcontra
          exact absurd hcontra (by decide)
        · rw [he] at hcontra
          simp at hcontra
          exact accountTypeIdMsg_ne_parentNotFound _ hcontra
    | ok pa =>
        rw [hg] at hcontra
        simp [isNullish] at hcontra
        by_cases heq : pa.normalBalance = input.normalBalance
        · rw [if_pos heq] at hcontra
          exact absurd hcontra (by simp)
        · rw [if_neg heq] at hcontra
          exact absurd hcontra (by decide)
  · rw [if_neg ht] at hcontra
    exact absurd hcontra (by simp)

/-- C10: with an unresolvable `parentLedgerAccountTypeId`, `insertAccountType`
raises the generic `Account type ID: <id> not found` error thrown inside
`getSavedAccountTypeById`; the later `Parent account type not found` branch is
unreachable for every database and input. -/
theorem c10_parent_not_found_branch_unreachable (db : DB)
    (input : InputLedgerAccountType) :
    (∀ pid, input.parentLedgerAccountTypeId = some pid → pid ≠ 0 →
        db.accountTypes.filter (fun t => t.slug = input.slug) = [] →
        db.accountTypes.filter (fun t => t.id = pid) = [] →
        insertAccountType db input =
          (.error (.ledgerError ("Account type ID: " ++ toString pid ++ " not found")),
           db)) ∧
    (∀ db₀ : DB, ∀ input₀ : InputLedgerAccountType,
        (insertAccountType db₀ input₀).1 ≠
          .error (.ledgerError "Parent account type not found")) := by
  constructor
  · intro pid hpid hpidne hslug hid
    unfold insertAccountType findAccountTypeBySlug checkParentAccountType
      getSavedAccountTypeById
    rw [hslug, hpid]
    simp only [Option.getD_some]
    rw [hid]
    simp [maybeOne, truthyId, hpidne, Bind.bind, Except.instMonad, Except.bind]
  · intro db₀ input₀ hcontra
    unfold insertAccountType at hcontra
    cases hf : findAccountTypeBySlug db₀ input₀.slug with
    | error e =>
        rw [hf] at hcontra
        have he := findAccountTypeBySlug_error_msg _ _ _ hf
        subst he
        simp at hcontra
    | ok existing =>
        rw [hf] at hcontra
        cases existing with
        | none =>
            simp only [Bool.false_eq_true, if_false] at hcontra
            cases hc : checkParentAccountType db₀ input₀ with
            | error e =>
                rw [hc] at hcontra
                simp at hcontra
                exact checkParent_never_parentNotFound db₀ input₀
                  (by rw [hc, hcontra])
            | ok u =>
                cases u
                rw [hc] at hcontra
                simp at hcontra
        | some t =>
            by_cases hent : t.isEntityLedgerAccount = true
            · simp only [hent, Bool.not_true, Bool.false_eq_true, if_false]
                at hcontra
              cases hc : checkParentAccountType db₀ input₀ with
              | error e =>
                  rw [hc] at hcontra
                  simp at hcontra
                  exact checkParent_never_parentNotFound db₀ input₀
                    (by rw [hc, hcontra])
              | ok u =>
                  cases u
                  rw [hc] at hcontra
                  simp at hcontra
            · rw [Bool.not_eq_true] at hent
              simp only [hent, Bool.not_false, if_true] at hcontra
              simp at hcontra
              exact accountTypeExistsMsg_ne_parentNotFound _ hcontra

theorem c10_parent_not_found_branch_unreachable_witness :
    insertAccountType { emptyDB with accountTypes := [] } wInputC =
      (.error (.ledgerError ("Account type ID: " ++ toString 1 ++ " not found")),
       { emptyDB with accountTypes := [] }) ∧
    (insertAccountType wDbTypeC wInputC).1 ≠
      .error (.ledgerError "Parent account type not found") :=
  ⟨(c10_parent_not_found_branch_unreachable
      { emptyDB with accountTypes := [] } wInputC).1 1 rfl (by decide) rfl rfl,
   (c10_parent_not_found_branch_unreachable wDbTypeC wInputC).2 wDbTypeC wInputC⟩

end Lefra
